import Mathlib

/-!
Shallow embedding of `src/StateMachine.h`, a templated finite-state machine
`TStateMachine<EnumClass, TemplateClass>` keyed by state identifiers, holding
three `std::map`s of member-function-pointer callbacks (on-enter, on-tick,
on-exit) and a raw owner pointer.

Modelling choices:
* `O` is the owner object's identity; the owner pointer is `Option O`
  (`none` = null pointer).
* `S` is the state enum (`EnumClass`), with decidable equality (the enum's
  `!=` and the map's key ordering).
* `C` is the identity of a non-null enter/exit member-function pointer and
  `U` of a non-null update pointer; a stored pointer value is `Option C`
  (`none` = null pointer).
* a `std::map` is a function `S → Option V`, `none` meaning the key is
  absent; `operator[]` value-inserts a default (null pointer) on a missing
  key, which `mapIndex` makes explicit by returning the possibly-grown map.
* callback invocation is recorded in an event trace returned next to the
  status and the post-state, since the callback bodies are opaque caller
  code; `D` is the type of the `DeltaTime` argument (`float` in the source).
-/

namespace StateMachineSpec

/-- The return status enumeration `EStateMachineStatus`. -/
inductive EStateMachineStatus where
  | NullOwner
  | StateChanged
  | StateUnchanged
  | TickSuccess
  deriving DecidableEq, Repr

/-- A `std::map<S, V>`: `none` means the key has no entry. -/
def CbMap (S V : Type) : Type := S → Option V

/-- Reading `m[k]` through `std::map::operator[]`: if `k` has no entry, a
value-initialized entry `dflt` (a null pointer for the callback maps) is
inserted first; returns the stored value and the possibly-grown map. -/
def mapIndex [DecidableEq S] (m : CbMap S V) (k : S) (dflt : V) :
    V × CbMap S V :=
  match m k with
  | some v => (v, m)
  | none => (dflt, fun s => if s = k then some dflt else m s)

/-- Writing `m[k] = v` through `std::map::operator[]`: the entry for `k` is
created or overwritten with `v`. -/
def mapAssign [DecidableEq S] (m : CbMap S V) (k : S) (v : V) : CbMap S V :=
  fun s => if s = k then some v else m s

/-- The callback a lookup-and-invoke path observes for key `k`: an absent
entry and an entry holding a null pointer both give `none`. -/
def boundCb (m : CbMap S (Option V)) (k : S) : Option V :=
  (m k).getD none

/-- `TStateMachine<EnumClass, TemplateClass>`: owner pointer, current state,
and the three callback maps `StatesOnEnter`, `StatesTick`, `StatesOnExit`. -/
@[ext]
structure TStateMachine (O S C U : Type) where
  Owner : Option O
  CurrentState : S
  StatesOnEnter : CbMap S (Option C)
  StatesTick : CbMap S (Option U)
  StatesOnExit : CbMap S (Option C)

/-- One recorded callback invocation against the owner: exit and enter
callbacks take no arguments, the tick callback receives `DeltaTime`. -/
inductive TraceEvent (C U D : Type) where
  | exitCall (cb : C)
  | enterCall (cb : C)
  | tickCall (cb : U) (dt : D)
  deriving DecidableEq, Repr

/-- The trace of an `if(callback) { (Owner->*callback)(...); }` guard: a
null pointer produces no invocation, a non-null one exactly one. -/
def callTrace (cb : Option V) (ev : V → TraceEvent C U D) :
    List (TraceEvent C U D) :=
  match cb with
  | some c => [ev c]
  | none => []

/-- The constructor `TStateMachine(owner, emptyState)`: binds the owner
pointer and sets `CurrentState = emptyState`; the three maps start empty. -/
def construct (owner : Option O) (emptyState : S) : TStateMachine O S C U :=
  { Owner := owner
    CurrentState := emptyState
    StatesOnEnter := fun _ => none
    StatesTick := fun _ => none
    StatesOnExit := fun _ => none }

/-- `RegisterState(state, callbackEntry, callbackTick, callbackExit)`:
assigns all three map entries for `state`. -/
def RegisterState [DecidableEq S] (m : TStateMachine O S C U) (state : S)
    (callbackEntry : Option C) (callbackTick : Option U)
    (callbackExit : Option C) : TStateMachine O S C U :=
  { m with
    StatesOnEnter := mapAssign m.StatesOnEnter state callbackEntry
    StatesTick := mapAssign m.StatesTick state callbackTick
    StatesOnExit := mapAssign m.StatesOnExit state callbackExit }

/-- `GetCurrentState()`: returns `CurrentState`. -/
def GetCurrentState (m : TStateMachine O S C U) : S :=
  m.CurrentState

/-- `ChangeState(stateNext)`: with a null owner returns `NullOwner`; with
`stateNext` equal to the current state returns `StateUnchanged`; otherwise
reads `StatesOnExit[CurrentState]`, invokes it if non-null, sets
`CurrentState = stateNext`, reads `StatesOnEnter[CurrentState]`, invokes it
if non-null, and returns `StateChanged`.  Returns the status, the machine
after the call, and the trace of callback invocations in order. -/
def ChangeState [DecidableEq S] (m : TStateMachine O S C U) (stateNext : S) :
    EStateMachineStatus × TStateMachine O S C U × List (TraceEvent C U D) :=
  match m.Owner with
  | some _ =>
    if m.CurrentState ≠ stateNext then
      let exitRead := mapIndex m.StatesOnExit m.CurrentState none
      let exitTrace := callTrace (D := D) exitRead.1 TraceEvent.exitCall
      let m1 := { m with StatesOnExit := exitRead.2, CurrentState := stateNext }
      let enterRead := mapIndex m1.StatesOnEnter m1.CurrentState none
      let enterTrace := callTrace (D := D) enterRead.1 TraceEvent.enterCall
      (EStateMachineStatus.StateChanged, { m1 with StatesOnEnter := enterRead.2 },
        exitTrace ++ enterTrace)
    else
      (EStateMachineStatus.StateUnchanged, m, [])
  | none => (EStateMachineStatus.NullOwner, m, [])

/-- `Tick(DeltaTime)`: with a null owner returns `NullOwner`; otherwise
reads `StatesTick[CurrentState]` and, if it is non-null, invokes it with
`DeltaTime` and returns `TickSuccess`; if it is null the code falls through
to the same `return NullOwner` as the null-owner path. -/
def Tick [DecidableEq S] (m : TStateMachine O S C U) (DeltaTime : D) :
    EStateMachineStatus × TStateMachine O S C U × List (TraceEvent C U D) :=
  match m.Owner with
  | some _ =>
    let tickRead := mapIndex m.StatesTick m.CurrentState none
    let m1 := { m with StatesTick := tickRead.2 }
    match tickRead.1 with
    | some cb =>
      (EStateMachineStatus.TickSuccess, m1, [TraceEvent.tickCall cb DeltaTime])
    | none => (EStateMachineStatus.NullOwner, m1, [])
  | none => (EStateMachineStatus.NullOwner, m, [])

/-! ### Characterization lemmas -/

/-- `operator[]` reads the stored value when the key is present and the
default otherwise. -/
theorem mapIndex_fst [DecidableEq S] (m : CbMap S V) (k : S) (dflt : V) :
    (mapIndex m k dflt).1 = (m k).getD dflt := by
  unfold mapIndex
  cases h : m k <;> simp [h]

/-- With a non-null owner and a genuinely different target state,
`ChangeState` is fully described by: status `StateChanged`, current state
set to the target, exit then enter traces from the bound callbacks, and the
exit/enter maps grown by their `operator[]` reads. -/
theorem changeState_spec_diff [DecidableEq S] (m : TStateMachine O S C U)
    (s : S) (hown : m.Owner.isSome) (hs : m.CurrentState ≠ s) :
    ChangeState (D := D) m s =
      (EStateMachineStatus.StateChanged,
        { Owner := m.Owner, CurrentState := s,
          StatesOnEnter := (mapIndex m.StatesOnEnter s none).2,
          StatesTick := m.StatesTick,
          StatesOnExit := (mapIndex m.StatesOnExit m.CurrentState none).2 },
        callTrace (boundCb m.StatesOnExit m.CurrentState) TraceEvent.exitCall ++
          callTrace (boundCb m.StatesOnEnter s) TraceEvent.enterCall) := by
  rcases m with ⟨ow, cur, en, ti, ex⟩
  rcases ow with _ | o
  · simp at hown
  · dsimp only at hs ⊢
    simp only [ChangeState, ne_eq, hs, not_false_iff, if_true, mapIndex_fst,
      boundCb]

/-- With a non-null owner, `ChangeState` to the current state itself returns
`StateUnchanged` and leaves the machine untouched with an empty trace. -/
theorem changeState_spec_same [DecidableEq S] (m : TStateMachine O S C U)
    (s : S) (hown : m.Owner.isSome) (hs : m.CurrentState = s) :
    ChangeState (D := D) m s = (EStateMachineStatus.StateUnchanged, m, []) := by
  rcases m with ⟨ow, cur, en, ti, ex⟩
  rcases ow with _ | o
  · simp at hown
  · dsimp only at hs ⊢
    simp only [ChangeState, ne_eq, hs, not_true, if_false]

/-- With a null owner, `ChangeState` returns `NullOwner` and leaves the
machine untouched with an empty trace. -/
theorem changeState_spec_null [DecidableEq S] (m : TStateMachine O S C U)
    (s : S) (hown : m.Owner = none) :
    ChangeState (D := D) m s = (EStateMachineStatus.NullOwner, m, []) := by
  rcases m with ⟨ow, cur, en, ti, ex⟩
  dsimp only at hown
  subst hown
  rfl

/-- With a non-null owner, `Tick` is fully described by: status from the
bound update callback (`TickSuccess` if non-null, else `NullOwner`), the
tick map grown by its `operator[]` read, and the trace of the invocation. -/
theorem tick_spec [DecidableEq S] (m : TStateMachine O S C U) (dt : D)
    (hown : m.Owner.isSome) :
    Tick m dt =
      ((boundCb m.StatesTick m.CurrentState).elim EStateMachineStatus.NullOwner
          (fun _ => EStateMachineStatus.TickSuccess),
        { Owner := m.Owner, CurrentState := m.CurrentState,
          StatesOnEnter := m.StatesOnEnter,
          StatesTick := (mapIndex m.StatesTick m.CurrentState none).2,
          StatesOnExit := m.StatesOnExit },
        callTrace (boundCb m.StatesTick m.CurrentState)
          (fun cb => TraceEvent.tickCall cb dt)) := by
  rcases m with ⟨ow, cur, en, ti, ex⟩
  rcases ow with _ | o
  · simp at hown
  · dsimp only
    simp only [Tick, mapIndex_fst, boundCb]
    cases h : (ti cur).getD none <;> simp [h, callTrace]

/-- With a null owner, `Tick` returns `NullOwner` and leaves the machine
untouched with an empty trace. -/
theorem tick_spec_null [DecidableEq S] (m : TStateMachine O S C U) (dt : D)
    (hown : m.Owner = none) :
    Tick m dt = (EStateMachineStatus.NullOwner, m, []) := by
  rcases m with ⟨ow, cur, en, ti, ex⟩
  dsimp only at hown
  subst hown
  rfl

/-- `operator[]` on a missing key grows the map by a default entry. -/
theorem mapIndex_snd_of_none [DecidableEq S] (mp : CbMap S V) (k : S)
    (dflt : V) (h : mp k = none) :
    (mapIndex mp k dflt).2 = mapAssign mp k dflt := by
  unfold mapIndex mapAssign
  rw [h]

/-- Entering a null-pointer map entry for an absent key changes no bound
callback. -/
theorem boundCb_mapAssign_none [DecidableEq S] (mp : CbMap S (Option V))
    (t k : S) (h : mp t = none) :
    boundCb (mapAssign mp t none) k = boundCb mp k := by
  unfold boundCb mapAssign
  by_cases hk : k = t
  · subst hk
    rw [if_pos rfl, h]
    rfl
  · rw [if_neg hk]

/-- Two `m[k] = v` writes to the same key: the second fully overwrites. -/
theorem mapAssign_mapAssign [DecidableEq S] (mp : CbMap S V) (k : S)
    (v v2 : V) : mapAssign (mapAssign mp k v) k v2 = mapAssign mp k v2 := by
  funext s
  unfold mapAssign
  by_cases h : s = k <;> simp [h]

/-! ### Fixtures for the witness theorems -/

/-- A concrete fixture: owner present, current state `false`; state `false`
registered with enter id 1, tick id 4, exit id 2; state `true` registered
with enter id 3, null tick and null exit pointers. -/
def exampleMachine : TStateMachine Unit Bool Nat Nat :=
  RegisterState
    (RegisterState (construct (some ()) false) false (some 1) (some 4) (some 2))
    true (some 3) none none

/-- A concrete fixture: owner present, current state `false`, no state
registered at all. -/
def emptyRegMachine : TStateMachine Unit Bool Nat Nat :=
  construct (some ()) false

/-- A concrete fixture: null owner pointer. -/
def nullOwnerMachine : TStateMachine Unit Bool Nat Nat :=
  construct none false

/-- A concrete fixture: owner present, current state `true`, which is
registered with a null update pointer. -/
def tickNoneMachine : TStateMachine Unit Bool Nat Nat :=
  RegisterState (construct (some ()) true) true (some 3) none none

/-! ### Claim theorems -/

/-- C1: for every machine with a non-null owner and every state `s` different
from the current state, `ChangeState s` returns `StateChanged`, sets the
current state to `s` (so `GetCurrentState` yields `s` afterwards), and
invokes the exit callback bound for the old state (if present) to completion
before the enter callback bound for the new state (if present), each exactly
once with no arguments. -/
theorem changeState_transition_correct [DecidableEq S]
    (m : TStateMachine O S C U) (s : S)
    (hown : m.Owner.isSome) (hne : m.CurrentState ≠ s) :
    (ChangeState (D := D) m s).1 = EStateMachineStatus.StateChanged ∧
    GetCurrentState (ChangeState (D := D) m s).2.1 = s ∧
    (ChangeState (D := D) m s).2.2 =
      callTrace (boundCb m.StatesOnExit m.CurrentState) TraceEvent.exitCall ++
        callTrace (boundCb m.StatesOnEnter s) TraceEvent.enterCall := by
  rw [changeState_spec_diff m s hown hne]
  exact ⟨rfl, rfl, rfl⟩

/-- Witness for C1 on `exampleMachine` and target state `true`: the exit
callback 2 of the old state `false` runs before the enter callback 3 of the
new state `true`. -/
theorem changeState_transition_correct_witness :
    (exampleMachine.Owner.isSome ∧ exampleMachine.CurrentState ≠ true) ∧
    ((ChangeState (D := Nat) exampleMachine true).1 =
        EStateMachineStatus.StateChanged ∧
      GetCurrentState (ChangeState (D := Nat) exampleMachine true).2.1 = true ∧
      (ChangeState (D := Nat) exampleMachine true).2.2 =
        callTrace (boundCb exampleMachine.StatesOnExit
            exampleMachine.CurrentState) TraceEvent.exitCall ++
          callTrace (boundCb exampleMachine.StatesOnEnter true)
            TraceEvent.enterCall) :=
  ⟨⟨rfl, by decide⟩,
    changeState_transition_correct exampleMachine true rfl (by decide)⟩

/-- C2: for every machine with a non-null owner, `ChangeState s` with `s`
equal to the current state returns `StateUnchanged`, leaves the machine
(current state included) unmodified, and invokes no callbacks. -/
theorem changeState_same_state_noop [DecidableEq S]
    (m : TStateMachine O S C U) (s : S)
    (hown : m.Owner.isSome) (hs : s = m.CurrentState) :
    (ChangeState (D := D) m s).1 = EStateMachineStatus.StateUnchanged ∧
    (ChangeState (D := D) m s).2.1 = m ∧
    (ChangeState (D := D) m s).2.2 = ([] : List (TraceEvent C U D)) := by
  rw [changeState_spec_same m s hown hs.symm]
  exact ⟨rfl, rfl, rfl⟩

/-- Witness for C2 on `exampleMachine` and its own current state `false`. -/
theorem changeState_same_state_noop_witness :
    (exampleMachine.Owner.isSome ∧ false = exampleMachine.CurrentState) ∧
    ((ChangeState (D := Nat) exampleMachine false).1 =
        EStateMachineStatus.StateUnchanged ∧
      (ChangeState (D := Nat) exampleMachine false).2.1 = exampleMachine ∧
      (ChangeState (D := Nat) exampleMachine false).2.2 =
        ([] : List (TraceEvent Nat Nat Nat))) :=
  ⟨⟨rfl, rfl⟩, changeState_same_state_noop exampleMachine false rfl rfl⟩

/-- C3: for every machine with a non-null owner whose current state has no
bound update callback (absent map entry or null pointer alike), `Tick dt`
returns `NullOwner` even though the owner is valid, and invokes no
callback. -/
theorem tick_no_update_returns_nullOwner [DecidableEq S]
    (m : TStateMachine O S C U) (dt : D) (hown : m.Owner.isSome)
    (hnone : boundCb m.StatesTick m.CurrentState = none) :
    (Tick m dt).1 = EStateMachineStatus.NullOwner ∧
    (Tick m dt).2.2 = [] := by
  rw [tick_spec m dt hown]
  simp [hnone, callTrace]

/-- Witness for C3 on `tickNoneMachine`, whose current state `true` is
registered with a null update pointer. -/
theorem tick_no_update_returns_nullOwner_witness :
    (tickNoneMachine.Owner.isSome ∧
      boundCb tickNoneMachine.StatesTick tickNoneMachine.CurrentState = none) ∧
    ((Tick tickNoneMachine (7 : Nat)).1 = EStateMachineStatus.NullOwner ∧
      (Tick tickNoneMachine (7 : Nat)).2.2 = []) :=
  ⟨⟨rfl, rfl⟩, tick_no_update_returns_nullOwner tickNoneMachine 7 rfl rfl⟩

/-- C4: for every machine with a null owner pointer, `ChangeState` and `Tick`
both return `NullOwner` regardless of their arguments, invoke no callbacks,
and leave the machine — current state and all three registration maps —
entirely unchanged. -/
theorem null_owner_inert [DecidableEq S] (m : TStateMachine O S C U)
    (s : S) (dt : D) (hown : m.Owner = none) :
    (ChangeState (D := D) m s).1 = EStateMachineStatus.NullOwner ∧
    (ChangeState (D := D) m s).2.1 = m ∧
    (ChangeState (D := D) m s).2.2 = [] ∧
    (Tick m dt).1 = EStateMachineStatus.NullOwner ∧
    (Tick m dt).2.1 = m ∧
    (Tick m dt).2.2 = [] := by
  rw [changeState_spec_null m s hown, tick_spec_null m dt hown]
  exact ⟨rfl, rfl, rfl, rfl, rfl, rfl⟩

/-- Witness for C4 on `nullOwnerMachine`. -/
theorem null_owner_inert_witness :
    (nullOwnerMachine.Owner = none) ∧
    ((ChangeState (D := Nat) nullOwnerMachine true).1 =
        EStateMachineStatus.NullOwner ∧
      (ChangeState (D := Nat) nullOwnerMachine true).2.1 = nullOwnerMachine ∧
      (ChangeState (D := Nat) nullOwnerMachine true).2.2 = [] ∧
      (Tick nullOwnerMachine (3 : Nat)).1 = EStateMachineStatus.NullOwner ∧
      (Tick nullOwnerMachine (3 : Nat)).2.1 = nullOwnerMachine ∧
      (Tick nullOwnerMachine (3 : Nat)).2.2 = []) :=
  ⟨rfl, null_owner_inert nullOwnerMachine true 3 rfl⟩

/-- C5: for every machine with a non-null owner whose current state has a
non-null bound update callback, `Tick dt` returns `TickSuccess` and invokes
that callback exactly once, passing exactly `dt`. -/
theorem tick_with_callback_success [DecidableEq S]
    (m : TStateMachine O S C U) (dt : D) (cb : U) (hown : m.Owner.isSome)
    (hcb : boundCb m.StatesTick m.CurrentState = some cb) :
    (Tick m dt).1 = EStateMachineStatus.TickSuccess ∧
    (Tick m dt).2.2 = [TraceEvent.tickCall cb dt] := by
  rw [tick_spec m dt hown]
  simp [hcb, callTrace]

/-- Witness for C5 on `exampleMachine`, whose current state `false` has
update callback 4, ticked with `dt = 5`. -/
theorem tick_with_callback_success_witness :
    (exampleMachine.Owner.isSome ∧
      boundCb exampleMachine.StatesTick exampleMachine.CurrentState =
        some 4) ∧
    ((Tick exampleMachine (5 : Nat)).1 = EStateMachineStatus.TickSuccess ∧
      (Tick exampleMachine (5 : Nat)).2.2 = [TraceEvent.tickCall 4 5]) :=
  ⟨⟨rfl, rfl⟩, tick_with_callback_success exampleMachine 5 4 rfl rfl⟩

/-- C6: for every machine with a non-null owner and a state `t` never
registered, any `ChangeState` call (to or from `t` included) behaves
identically — same status, same callback invocations, same resulting current
state — to the same call on the machine with `t` registered with all three
callbacks null; a genuine transition still returns `StateChanged`, so no
error status exists for an unknown state. -/
theorem unregistered_state_as_empty_registration [DecidableEq S]
    (m : TStateMachine O S C U) (t s : S) (hown : m.Owner.isSome)
    (hE : m.StatesOnEnter t = none) (hT : m.StatesTick t = none)
    (hX : m.StatesOnExit t = none) :
    (ChangeState (D := D) m s).1 =
        (ChangeState (D := D) (RegisterState m t none none none) s).1 ∧
    (ChangeState (D := D) m s).2.2 =
        (ChangeState (D := D) (RegisterState m t none none none) s).2.2 ∧
    GetCurrentState (ChangeState (D := D) m s).2.1 =
        GetCurrentState
          (ChangeState (D := D) (RegisterState m t none none none) s).2.1 ∧
    (m.CurrentState ≠ s →
      (ChangeState (D := D) m s).1 = EStateMachineStatus.StateChanged) := by
  have hown2 : (RegisterState m t none none none).Owner.isSome := hown
  by_cases hs : m.CurrentState = s
  · rw [changeState_spec_same m s hown hs,
      changeState_spec_same (RegisterState m t none none none) s hown2 hs]
    exact ⟨rfl, rfl, rfl, fun hne => absurd hs hne⟩
  · rw [changeState_spec_diff m s hown hs,
      changeState_spec_diff (RegisterState m t none none none) s hown2 hs]
    refine ⟨rfl, ?_, rfl, fun _ => rfl⟩
    show callTrace (boundCb m.StatesOnExit m.CurrentState) _ ++
        callTrace (boundCb m.StatesOnEnter s) _ =
      callTrace (boundCb (mapAssign m.StatesOnExit t none) m.CurrentState) _ ++
        callTrace (boundCb (mapAssign m.StatesOnEnter t none) s) _
    rw [boundCb_mapAssign_none m.StatesOnExit t m.CurrentState hX,
      boundCb_mapAssign_none m.StatesOnEnter t s hE]

/-- Witness for C6 on `emptyRegMachine` with unregistered state `true` both
as the unregistered state and as the transition target. -/
theorem unregistered_state_as_empty_registration_witness :
    (emptyRegMachine.Owner.isSome ∧
      emptyRegMachine.StatesOnEnter true = none ∧
      emptyRegMachine.StatesTick true = none ∧
      emptyRegMachine.StatesOnExit true = none) ∧
    ((ChangeState (D := Nat) emptyRegMachine true).1 =
        (ChangeState (D := Nat)
          (RegisterState emptyRegMachine true none none none) true).1 ∧
      (ChangeState (D := Nat) emptyRegMachine true).2.2 =
        (ChangeState (D := Nat)
          (RegisterState emptyRegMachine true none none none) true).2.2 ∧
      GetCurrentState (ChangeState (D := Nat) emptyRegMachine true).2.1 =
        GetCurrentState (ChangeState (D := Nat)
          (RegisterState emptyRegMachine true none none none) true).2.1 ∧
      (emptyRegMachine.CurrentState ≠ true →
        (ChangeState (D := Nat) emptyRegMachine true).1 =
          EStateMachineStatus.StateChanged)) :=
  ⟨⟨rfl, rfl, rfl, rfl⟩,
    unregistered_state_as_empty_registration emptyRegMachine true true rfl
      rfl rfl rfl⟩

/-- C7: `RegisterState` always succeeds and is idempotent per key under
repeated identical calls; a repeated call with different callbacks for the
same key fully replaces all three prior bindings, leaving exactly one
registration entry for that key. -/
theorem registerState_idempotent_overwrites [DecidableEq S]
    (m : TStateMachine O S C U) (k : S) (e e2 : Option C) (u u2 : Option U)
    (x x2 : Option C) :
    RegisterState (RegisterState m k e u x) k e u x =
        RegisterState m k e u x ∧
    RegisterState (RegisterState m k e u x) k e2 u2 x2 =
        RegisterState m k e2 u2 x2 ∧
    (RegisterState m k e u x).StatesOnEnter k = some e ∧
    (RegisterState m k e u x).StatesTick k = some u ∧
    (RegisterState m k e u x).StatesOnExit k = some x := by
  refine ⟨?_, ?_, ?_, ?_, ?_⟩
  · show ({ m with
        StatesOnEnter := mapAssign (mapAssign m.StatesOnEnter k e) k e
        StatesTick := mapAssign (mapAssign m.StatesTick k u) k u
        StatesOnExit := mapAssign (mapAssign m.StatesOnExit k x) k x } :
      TStateMachine O S C U) = _
    rw [mapAssign_mapAssign, mapAssign_mapAssign, mapAssign_mapAssign]
    rfl
  · show ({ m with
        StatesOnEnter := mapAssign (mapAssign m.StatesOnEnter k e) k e2
        StatesTick := mapAssign (mapAssign m.StatesTick k u) k u2
        StatesOnExit := mapAssign (mapAssign m.StatesOnExit k x) k x2 } :
      TStateMachine O S C U) = _
    rw [mapAssign_mapAssign, mapAssign_mapAssign, mapAssign_mapAssign]
    rfl
  · show mapAssign m.StatesOnEnter k e k = some e
    simp [mapAssign]
  · show mapAssign m.StatesTick k u k = some u
    simp [mapAssign]
  · show mapAssign m.StatesOnExit k x k = some x
    simp [mapAssign]

/-- C8: `Tick` only ever returns `NullOwner` or `TickSuccess`; `ChangeState`
only ever returns `NullOwner`, `StateChanged` or `StateUnchanged`; and every
status value lies in the closed four-value enumeration. -/
theorem status_domain_closed [DecidableEq S] (m : TStateMachine O S C U)
    (s : S) (dt : D) :
    ((Tick m dt).1 = EStateMachineStatus.NullOwner ∨
      (Tick m dt).1 = EStateMachineStatus.TickSuccess) ∧
    ((ChangeState (D := D) m s).1 = EStateMachineStatus.NullOwner ∨
      (ChangeState (D := D) m s).1 = EStateMachineStatus.StateChanged ∨
      (ChangeState (D := D) m s).1 = EStateMachineStatus.StateUnchanged) ∧
    ∀ st : EStateMachineStatus,
      st = EStateMachineStatus.NullOwner ∨
      st = EStateMachineStatus.StateChanged ∨
      st = EStateMachineStatus.StateUnchanged ∨
      st = EStateMachineStatus.TickSuccess := by
  refine ⟨?_, ?_, ?_⟩
  · cases how : m.Owner
    · rw [tick_spec_null m dt how]
      exact Or.inl rfl
    · rw [tick_spec m dt (by simp [how])]
      cases boundCb m.StatesTick m.CurrentState <;> simp
  · cases how : m.Owner
    · rw [changeState_spec_null m s how]
      exact Or.inl rfl
    · by_cases hs : m.CurrentState = s
      · rw [changeState_spec_same m s (by simp [how]) hs]
        exact Or.inr (Or.inr rfl)
      · rw [changeState_spec_diff m s (by simp [how]) hs]
        exact Or.inr (Or.inl rfl)
  · intro st
    cases st <;> simp

/-- C9: after construction with any owner pointer and any initial state —
registered or not — `GetCurrentState` returns exactly that initial state,
and as a pure accessor it depends only on the stored current state. -/
theorem construct_getCurrentState (o : Option O) (i : S) :
    GetCurrentState (construct (C := C) (U := U) o i) = i ∧
    ∀ m : TStateMachine O S C U, GetCurrentState m = m.CurrentState :=
  ⟨rfl, fun _ => rfl⟩

/-- A concrete fixture: owner present, current state `false`, an exit
callback 9 stored for `false`, and no enter or tick entries anywhere — a map
shape in which the tick entry for the current state is absent while that
state's exit callback is registered. -/
def exitOnlyMachine : TStateMachine Unit Bool Nat Nat :=
  { Owner := some ()
    CurrentState := false
    StatesOnEnter := fun _ => none
    StatesTick := fun _ => none
    StatesOnExit := mapAssign (fun _ => none) false (some 9) }

/-- C10: with a non-null owner, the lookup paths themselves grow the maps,
each under its own independent condition: a genuine `ChangeState` inserts a
null-callback entry into the exit map for the old state whenever that state
has no exit entry, and into the enter map for the new state whenever that
state has no enter entry (the tick map always untouched); `Tick` inserts a
null-callback entry into the tick map for the current state whenever that
state has no tick entry (the enter and exit maps always untouched). -/
theorem lookup_paths_grow_maps [DecidableEq S] (m : TStateMachine O S C U)
    (s : S) (dt : D) (hown : m.Owner.isSome) :
    (m.CurrentState ≠ s → m.StatesOnExit m.CurrentState = none →
      (ChangeState (D := D) m s).2.1.StatesOnExit =
        mapAssign m.StatesOnExit m.CurrentState none) ∧
    (m.CurrentState ≠ s → m.StatesOnEnter s = none →
      (ChangeState (D := D) m s).2.1.StatesOnEnter =
        mapAssign m.StatesOnEnter s none) ∧
    (ChangeState (D := D) m s).2.1.StatesTick = m.StatesTick ∧
    (m.StatesTick m.CurrentState = none →
      (Tick m dt).2.1.StatesTick =
        mapAssign m.StatesTick m.CurrentState none) ∧
    (Tick m dt).2.1.StatesOnEnter = m.StatesOnEnter ∧
    (Tick m dt).2.1.StatesOnExit = m.StatesOnExit := by
  refine ⟨?_, ?_, ?_, ?_, ?_, ?_⟩
  · intro hne hx
    rw [changeState_spec_diff m s hown hne]
    exact mapIndex_snd_of_none m.StatesOnExit m.CurrentState none hx
  · intro hne he
    rw [changeState_spec_diff m s hown hne]
    exact mapIndex_snd_of_none m.StatesOnEnter s none he
  · by_cases hs : m.CurrentState = s
    · rw [changeState_spec_same m s hown hs]
    · rw [changeState_spec_diff m s hown hs]
  · intro ht
    rw [tick_spec m dt hown]
    exact mapIndex_snd_of_none m.StatesTick m.CurrentState none ht
  · rw [tick_spec m dt hown]
  · rw [tick_spec m dt hown]

/-- Witness for C10 at two concrete inputs: on `emptyRegMachine` (no entries
at all) every insertion fires for the transition `false → true` and a tick at
`false`; on `exitOnlyMachine` the tick-map insertion fires even though the
current state has a registered (non-null) exit callback, showing the
conditions act independently. -/
theorem lookup_paths_grow_maps_witness :
    (emptyRegMachine.Owner.isSome ∧ emptyRegMachine.CurrentState ≠ true ∧
      emptyRegMachine.StatesOnExit emptyRegMachine.CurrentState = none ∧
      emptyRegMachine.StatesOnEnter true = none ∧
      emptyRegMachine.StatesTick emptyRegMachine.CurrentState = none ∧
      (ChangeState (D := Nat) emptyRegMachine true).2.1.StatesOnExit =
        mapAssign emptyRegMachine.StatesOnExit emptyRegMachine.CurrentState
          none ∧
      (ChangeState (D := Nat) emptyRegMachine true).2.1.StatesOnEnter =
        mapAssign emptyRegMachine.StatesOnEnter true none ∧
      (ChangeState (D := Nat) emptyRegMachine true).2.1.StatesTick =
        emptyRegMachine.StatesTick ∧
      (Tick emptyRegMachine (2 : Nat)).2.1.StatesTick =
        mapAssign emptyRegMachine.StatesTick emptyRegMachine.CurrentState
          none ∧
      (Tick emptyRegMachine (2 : Nat)).2.1.StatesOnEnter =
        emptyRegMachine.StatesOnEnter ∧
      (Tick emptyRegMachine (2 : Nat)).2.1.StatesOnExit =
        emptyRegMachine.StatesOnExit) ∧
    (exitOnlyMachine.Owner.isSome ∧
      exitOnlyMachine.StatesOnExit exitOnlyMachine.CurrentState =
        some (some 9) ∧
      exitOnlyMachine.StatesTick exitOnlyMachine.CurrentState = none ∧
      (Tick exitOnlyMachine (3 : Nat)).2.1.StatesTick =
        mapAssign exitOnlyMachine.StatesTick exitOnlyMachine.CurrentState
          none) :=
  ⟨⟨rfl, by decide, rfl, rfl, rfl,
      (lookup_paths_grow_maps emptyRegMachine true 2 rfl).1 (by decide) rfl,
      (lookup_paths_grow_maps emptyRegMachine true 2 rfl).2.1 (by decide) rfl,
      (lookup_paths_grow_maps emptyRegMachine true 2 rfl).2.2.1,
      (lookup_paths_grow_maps emptyRegMachine true 2 rfl).2.2.2.1 rfl,
      (lookup_paths_grow_maps emptyRegMachine true 2 rfl).2.2.2.2.1,
      (lookup_paths_grow_maps emptyRegMachine true 2 rfl).2.2.2.2.2⟩,
    ⟨rfl, by decide, rfl,
      (lookup_paths_grow_maps exitOnlyMachine true 3 rfl).2.2.2.1 rfl⟩⟩

end StateMachineSpec
